import Mathlib

/-!
Verification of the HMC5883L 3-axis magnetometer driver
(`components/hmc5883l/hmc5883l.h` and its register-protocol layer).

The repository ships the public header only; the transaction bodies are
modelled from the specification of the register protocol layer (register
map, bit-field encodings, read-modify-write discipline, raw-to-milligauss
conversion).  Bus interaction is embedded as a small free-monad `Prog`
whose `run` function both computes the result and records the exact list
of bus transactions issued, so frame properties ("no transaction issued",
"single 6-register transaction", "no read before write") are provable.
Physical (milligauss) values are modelled in exact rational arithmetic.
-/

namespace HMC5883L

/-! ## Constants from hmc5883l.h -/

def HMC5883L_ADDR : Nat := 0x1e

/-- Constant HMC5883L_ID 0x00333448 from hmc5883l.h line 23 (ASCII "H43"). -/
def HMC5883L_ID : Nat := 0x00333448

-- hmc5883l_opmode_t
def HMC5883L_MODE_CONTINUOUS : Nat := 0
def HMC5883L_MODE_SINGLE : Nat := 1

-- hmc5883l_samples_averaged_t
def HMC5883L_SAMPLES_1 : Nat := 0
def HMC5883L_SAMPLES_2 : Nat := 1
def HMC5883L_SAMPLES_4 : Nat := 2
def HMC5883L_SAMPLES_8 : Nat := 3

-- hmc5883l_data_rate_t
def HMC5883L_DATA_RATE_00_75 : Nat := 0
def HMC5883L_DATA_RATE_01_50 : Nat := 1
def HMC5883L_DATA_RATE_03_00 : Nat := 2
def HMC5883L_DATA_RATE_07_50 : Nat := 3
def HMC5883L_DATA_RATE_15_00 : Nat := 4
def HMC5883L_DATA_RATE_30_00 : Nat := 5
def HMC5883L_DATA_RATE_75_00 : Nat := 6

-- hmc5883l_bias_t
def HMC5883L_BIAS_NORMAL : Nat := 0
def HMC5883L_BIAS_POSITIVE : Nat := 1
def HMC5883L_BIAS_NEGATIVE : Nat := 2

-- hmc5883l_gain_t
def HMC5883L_GAIN_1370 : Nat := 0
def HMC5883L_GAIN_1090 : Nat := 1
def HMC5883L_GAIN_820 : Nat := 2
def HMC5883L_GAIN_660 : Nat := 3
def HMC5883L_GAIN_440 : Nat := 4
def HMC5883L_GAIN_390 : Nat := 5
def HMC5883L_GAIN_330 : Nat := 6
def HMC5883L_GAIN_230 : Nat := 7

/-! ## Register map and bit-field layout

Modelled from the spec: the implementation file is not in the repository;
the register addresses are the chip's fixed map and the field layout is
spec section 6 ("Configuration Register A bit layout: bits[7:5] =
samples-averaged (0..3), bits[4:2] = data-rate (0..6), bits[1:0] = bias
(0..2)"; Register B bits [7:5] = gain; Mode Register bit 0 = opmode). -/

def REG_CR_A : Nat := 0
def REG_CR_B : Nat := 1
def REG_MODE : Nat := 2
def REG_DATA : Nat := 3
def REG_STAT : Nat := 9
def REG_ID_A : Nat := 10

def BIT_MA : Nat := 5
def MASK_MA : Nat := 0x60
def BIT_DO : Nat := 2
def MASK_DO : Nat := 0x1c
def MASK_MS : Nat := 0x03
def BIT_GN : Nat := 5

/-! ## Pure register-A field arithmetic

`rmw mask val a` is the read-modify-write combination step from the spec:
clear the bits of `mask` in the old value `a`, then OR in the new field
bits `val`. -/

def rmw (mask val a : Nat) : Nat := (a &&& (255 ^^^ mask)) ||| val

def cra_set_samples (s a : Nat) : Nat := rmw MASK_MA (s <<< BIT_MA) a
def cra_set_rate (d a : Nat) : Nat := rmw MASK_DO (d <<< BIT_DO) a
def cra_set_bias (b a : Nat) : Nat := rmw MASK_MS b a

def cra_get_samples (a : Nat) : Nat := (a >>> BIT_MA) &&& 0x3
def cra_get_rate (a : Nat) : Nat := (a >>> BIT_DO) &&& 0x7
def cra_get_bias (a : Nat) : Nat := a &&& 0x3

def crb_set_gain (g : Nat) : Nat := g <<< BIT_GN
def crb_get_gain (b : Nat) : Nat := (b >>> BIT_GN) &&& 0x7

def decode_opmode (v : Nat) : Nat := v &&& 1

/-! ## Raw samples and conversion -/

/-- hmc5883l_raw_data_t: three signed 16-bit axis values. -/
structure RawData where
  x : Int
  y : Int
  z : Int
deriving DecidableEq, Repr

/-- hmc5883l_data_t: measurement in milligauss, modelled in exact ℚ. -/
structure MgData where
  x : ℚ
  y : ℚ
  z : ℚ
deriving DecidableEq, Repr

/-- Big-endian signed 16-bit assembly of a register byte pair. -/
def s16be (hi lo : Nat) : Int :=
  let u : Nat := hi * 256 + lo
  if u < 32768 then (u : Int) else (u : Int) - 65536

/-- Gain Scale Table (spec section 3, matching the doc comments of
`hmc5883l_gain_t` in hmc5883l.h lines 72-82): milligauss per LSb. -/
def gain_scale (g : Nat) : ℚ :=
  (match g with
   | 0 => (73 : ℚ)
   | 1 => 92
   | 2 => 122
   | 3 => 152
   | 4 => 227
   | 5 => 256
   | 6 => 303
   | _ => 435) / 100

/-- Modelled from the spec: `raw_to_physical` (hmc5883l_raw_to_mg, whose
body is not in the repository) multiplies each axis by the scale factor
looked up for the current gain, with no clamping.  The C function takes
no gain parameter (hmc5883l.h line 218); the driver-internal current
gain is passed here explicitly as `g`. -/
def hmc5883l_raw_to_mg (g : Nat) (raw : RawData) : MgData :=
  ⟨raw.x * gain_scale g, raw.y * gain_scale g, raw.z * gain_scale g⟩

/-- Modelled from the spec: the driver-internal state holding the
currently configured gain (the C file keeps it in a static variable,
updated by hmc5883l_set_gain, since hmc5883l_raw_to_mg takes no gain
argument). -/
structure DriverState where
  current_gain : Nat
deriving DecidableEq, Repr

def set_gain_state (g : Nat) (_st : DriverState) : DriverState := ⟨g⟩

/-! ## Bus transactions

A `Tx` is one bus transaction (a combined write-then-read of `len` bytes
starting at register `reg`, or a write of payload bytes starting at
`reg`).  A `Transport` decides the outcome of each transaction; bus
errors carry the transport's numeric failure code, surfaced verbatim. -/

inductive Tx where
  | read (reg len : Nat)
  | write (reg : Nat) (bytes : List Nat)
deriving DecidableEq, Repr

structure Transport where
  readResp : Nat → Nat → Except Nat (List Nat)
  writeResp : Nat → List Nat → Except Nat Unit

inductive Err where
  | invalidArg
  | bus (code : Nat)
deriving DecidableEq, Repr

/-- Driver operations as sequences of bus transactions. -/
inductive Prog (α : Type) where
  | ret (a : α)
  | fail (e : Err)
  | readReg (reg len : Nat) (k : List Nat → Prog α)
  | writeReg (reg : Nat) (bytes : List Nat) (k : Prog α)

def Prog.bind : Prog α → (α → Prog β) → Prog β
  | .ret a, f => f a
  | .fail e, _ => .fail e
  | .readReg r n k, f => .readReg r n fun bs => (k bs).bind f
  | .writeReg r bs k, f => .writeReg r bs (k.bind f)

/-- Run an operation against a transport; returns the result and the
list of bus transactions actually issued (a failed transaction is in
the list: it was issued and reported failure). -/
def run : Prog α → Transport → Except Err α × List Tx
  | .ret a, _ => (.ok a, [])
  | .fail e, _ => (.error e, [])
  | .readReg r n k, t =>
      match t.readResp r n with
      | .error c => (.error (.bus c), [.read r n])
      | .ok bs =>
          let p := run (k bs) t
          (p.1, .read r n :: p.2)
  | .writeReg r bs k, t =>
      match t.writeResp r bs with
      | .error c => (.error (.bus c), [.write r bs])
      | .ok _ =>
          let p := run k t
          (p.1, .write r bs :: p.2)

/-! ## The driver operations

Modelled from the spec: the bodies of the hmc5883l_* functions are not
in the repository (only hmc5883l.h is); each is modelled from spec
section 4.2 and section 6.  Arguments are validated against the enum
range before any transaction (spec section 7, InvalidArgument). -/

/-- Modelled from the spec: read-modify-write of one register — read the
current value, clear the field's mask bits, OR in the new field bits,
write the result back. -/
def update_register (reg mask val : Nat) : Prog Unit :=
  .readReg reg 1 fun bs =>
    .writeReg reg [rmw mask val (bs.headD 0)] (.ret ())

/-- Modelled from the spec: hmc5883l_set_opmode writes the full intended
Mode Register value directly (reserved bits zero, no read first). -/
def hmc5883l_set_opmode (mode : Nat) : Prog Unit :=
  if mode < 2 then .writeReg REG_MODE [mode] (.ret ()) else .fail .invalidArg

/-- Modelled from the spec: hmc5883l_get_opmode reads the Mode Register
and decodes bit 0. -/
def hmc5883l_get_opmode : Prog Nat :=
  .readReg REG_MODE 1 fun bs => .ret (decode_opmode (bs.headD 0))

/-- Modelled from the spec: hmc5883l_set_samples_averaged, 2-bit field
at bit offset 5 of Configuration Register A, read-modify-write. -/
def hmc5883l_set_samples_averaged (s : Nat) : Prog Unit :=
  if s < 4 then update_register REG_CR_A MASK_MA (s <<< BIT_MA)
  else .fail .invalidArg

def hmc5883l_get_samples_averaged : Prog Nat :=
  .readReg REG_CR_A 1 fun bs => .ret (cra_get_samples (bs.headD 0))

/-- Modelled from the spec: hmc5883l_set_data_rate, 3-bit field at bit
offset 2 of Configuration Register A, read-modify-write. -/
def hmc5883l_set_data_rate (d : Nat) : Prog Unit :=
  if d < 7 then update_register REG_CR_A MASK_DO (d <<< BIT_DO)
  else .fail .invalidArg

def hmc5883l_get_data_rate : Prog Nat :=
  .readReg REG_CR_A 1 fun bs => .ret (cra_get_rate (bs.headD 0))

/-- Modelled from the spec: hmc5883l_set_bias, 2-bit field at bits [1:0]
of Configuration Register A, read-modify-write. -/
def hmc5883l_set_bias (b : Nat) : Prog Unit :=
  if b < 3 then update_register REG_CR_A MASK_MS b
  else .fail .invalidArg

def hmc5883l_get_bias : Prog Nat :=
  .readReg REG_CR_A 1 fun bs => .ret (cra_get_bias (bs.headD 0))

/-- Modelled from the spec: hmc5883l_set_gain — Register B holds only
the 3-bit gain field at bit offset 5, so set is a direct write of the
full register value, not a read-modify-write. -/
def hmc5883l_set_gain (g : Nat) : Prog Unit :=
  if g < 8 then .writeReg REG_CR_B [crb_set_gain g] (.ret ())
  else .fail .invalidArg

def hmc5883l_get_gain : Prog Nat :=
  .readReg REG_CR_B 1 fun bs => .ret (crb_get_gain (bs.headD 0))

def hmc5883l_data_is_ready : Prog Bool :=
  .readReg REG_STAT 1 fun bs => .ret ((bs.headD 0) &&& 1 = 1)

def hmc5883l_data_is_locked : Prog Bool :=
  .readReg REG_STAT 1 fun bs => .ret ((bs.headD 0) &&& 2 = 2)

/-- Modelled from the spec: hmc5883l_get_id reads the 3 identity
registers in one transaction and assembles them into the 24-bit id whose
expected value is the header's constant HMC5883L_ID = 0x00333448, i.e.
the first register lands in the low byte (little-endian assembly: the
bytes 0x48,0x34,0x33 of a functioning chip give 0x00333448, as the
header's doc comment states). -/
def hmc5883l_get_id : Prog Nat :=
  .readReg REG_ID_A 3 fun bs =>
    .ret (bs.getD 0 0 + bs.getD 1 0 * 256 + bs.getD 2 0 * 65536)

/-- Big-endian concatenation of a byte list (first byte most
significant); this follows the spec's words "concatenates big-endian",
for comparison with `hmc5883l_get_id`. -/
def concat_be (bs : List Nat) : Nat :=
  bs.foldl (fun acc b => acc * 256 + b) 0

/-- Modelled from the spec: hmc5883l_get_raw_data reads the 6 data
registers in one transaction (on-wire order X_high, X_low, Z_high,
Z_low, Y_high, Y_low) and assembles logical x, y, z. -/
def hmc5883l_get_raw_data : Prog RawData :=
  .readReg REG_DATA 6 fun bs =>
    .ret ⟨s16be (bs.getD 0 0) (bs.getD 1 0),
          s16be (bs.getD 4 0) (bs.getD 5 0),
          s16be (bs.getD 2 0) (bs.getD 3 0)⟩

/-- Modelled from the spec: hmc5883l_get_data is the composition of
hmc5883l_get_raw_data with hmc5883l_raw_to_mg using the driver-internal
currently configured gain. -/
def hmc5883l_get_data (st : DriverState) : Prog MgData :=
  hmc5883l_get_raw_data.bind fun raw =>
    .ret (hmc5883l_raw_to_mg st.current_gain raw)

/-! ## Transaction outcome bookkeeping -/

/-- The transport's verdict on one transaction: `some c` when it fails
with bus error code `c`. -/
def txFails (t : Transport) : Tx → Option Nat
  | .read r n =>
      match t.readResp r n with
      | .error c => some c
      | .ok _ => none
  | .write r bs =>
      match t.writeResp r bs with
      | .error c => some c
      | .ok _ => none

/-- The trace `tr` consists of successful transactions followed by one
final transaction that failed with bus code `c`: the operation stopped
at the first transport failure and surfaced exactly its code. -/
def FirstFail (t : Transport) (tr : List Tx) (c : Nat) : Prop :=
  ∃ pre fin, tr = pre ++ [fin] ∧ txFails t fin = some c ∧
    ∀ tx ∈ pre, txFails t tx = none

/-- The operation never produces a bus error of its own: every
`Err.bus` in its result comes from a transaction the transport failed. -/
def NoBusErr : Prog α → Prop
  | .ret _ => True
  | .fail e => ∀ c, e ≠ .bus c
  | .readReg _ _ k => ∀ bs, NoBusErr (k bs)
  | .writeReg _ _ k => NoBusErr k

/-- Against every transport, a bus-error result is explained by the
first failing transaction of the trace (error code surfaced verbatim,
nothing issued after the failure). -/
def PropagatesBus (p : Prog α) : Prop :=
  ∀ t c, (run p t).1 = .error (.bus c) → FirstFail t (run p t).2 c

/-- Against every transport, no transaction is ever issued twice (in
particular nothing is retried). -/
def NoRetry (p : Prog α) : Prop :=
  ∀ t : Transport, ((run p t).2).Nodup

/-! ## Chip register state affected by a trace -/

/-- Effect of the writes of a trace on the chip's register file (a
write of `bytes` at `r` fills registers `r`, `r+1`, ...). -/
def applyWrites : List Tx → (Nat → Nat) → (Nat → Nat)
  | [], regs => regs
  | .read _ _ :: rest, regs => applyWrites rest regs
  | .write r bs :: rest, regs =>
      applyWrites rest fun a =>
        if r ≤ a ∧ a < r + bs.length then bs.getD (a - r) (regs a) else regs a

/-! ## Mock transports for concrete runs -/

/-- Transport whose reads all deliver the fixed byte list `bs`
(truncated to the requested length) and whose writes succeed. -/
def mock_ok (bs : List Nat) : Transport :=
  ⟨fun _ n => .ok (bs.take n), fun _ _ => .ok ()⟩

/-- Transport whose reads deliver zeros and whose writes all fail with
bus code `c`. -/
def mock_write_fail (c : Nat) : Transport :=
  ⟨fun _ n => .ok (List.replicate n 0), fun _ _ => .error c⟩

/-- Transport whose reads all fail with bus code `c`. -/
def mock_read_fail (c : Nat) : Transport :=
  ⟨fun _ _ => .error c, fun _ _ => .ok ()⟩

/-! ## Helper lemmas -/

theorem run_ret {α : Type} (a : α) (t : Transport) :
    run (.ret a) t = (.ok a, []) := rfl

theorem run_fail {α : Type} (e : Err) (t : Transport) :
    run (Prog.fail e : Prog α) t = (.error e, []) := rfl

theorem run_read_error {α : Type} {t : Transport} {r n c : Nat}
    (k : List Nat → Prog α) (hr : t.readResp r n = .error c) :
    run (.readReg r n k) t = (.error (.bus c), [.read r n]) := by
  simp only [run, hr]

theorem run_read_ok {α : Type} {t : Transport} {r n : Nat} {bs : List Nat}
    (k : List Nat → Prog α) (hr : t.readResp r n = .ok bs) :
    run (.readReg r n k) t =
      ((run (k bs) t).1, .read r n :: (run (k bs) t).2) := by
  simp only [run, hr]

theorem run_write_error {α : Type} {t : Transport} {r c : Nat}
    {bs : List Nat} (k : Prog α) (hw : t.writeResp r bs = .error c) :
    run (.writeReg r bs k) t = (.error (.bus c), [.write r bs]) := by
  simp only [run, hw]

theorem run_write_ok {α : Type} {t : Transport} {r : Nat} {bs : List Nat}
    {u : Unit} (k : Prog α) (hw : t.writeResp r bs = .ok u) :
    run (.writeReg r bs k) t = ((run k t).1, .write r bs :: (run k t).2) := by
  simp only [run, hw]

theorem run_bus_error {α : Type} (p : Prog α) :
    NoBusErr p → ∀ (t : Transport) (c : Nat),
      (run p t).1 = .error (.bus c) → FirstFail t (run p t).2 c := by
  induction p with
  | ret a => intro _ t c he; rw [run_ret] at he; exact absurd he (by simp)
  | fail e =>
      intro h t c he
      rw [run_fail] at he
      simp at he
      exact absurd he (h c)
  | readReg r n k ih =>
      intro h t c he
      rcases hr : t.readResp r n with c0 | bs
      · rw [run_read_error k hr] at he ⊢
        simp at he
        exact ⟨[], .read r n, by simp, by simp [txFails, hr, he], by simp⟩
      · rw [run_read_ok k hr] at he ⊢
        simp only at he
        obtain ⟨pre, fin, htr, hfin, hpre⟩ := ih bs (h bs) t c he
        refine ⟨.read r n :: pre, fin, by simp [htr], hfin, ?_⟩
        intro tx htx
        rcases List.mem_cons.1 htx with rfl | htx
        · simp [txFails, hr]
        · exact hpre tx htx
  | writeReg r bs k ih =>
      intro h t c he
      rcases hw : t.writeResp r bs with c0 | u
      · rw [run_write_error k hw] at he ⊢
        simp at he
        exact ⟨[], .write r bs, by simp, by simp [txFails, hw, he], by simp⟩
      · rw [run_write_ok k hw] at he ⊢
        simp only at he
        obtain ⟨pre, fin, htr, hfin, hpre⟩ := ih h t c he
        refine ⟨.write r bs :: pre, fin, by simp [htr], hfin, ?_⟩
        intro tx htx
        rcases List.mem_cons.1 htx with rfl | htx
        · simp [txFails, hw]
        · exact hpre tx htx

theorem run_update_register_trace (t : Transport) (reg mask val a : Nat)
    (hr : t.readResp reg 1 = .ok [a]) :
    (run (update_register reg mask val) t).2 =
      [.read reg 1, .write reg [rmw mask val a]] := by
  simp only [update_register]
  rw [run_read_ok _ hr]
  simp only [List.headD_cons]
  rcases hw : t.writeResp reg [rmw mask val a] with c | u
  · rw [run_write_error _ hw]
  · rw [run_write_ok _ hw, run_ret]

theorem noBusErr_update_register (reg mask val : Nat) :
    NoBusErr (update_register reg mask val) := by
  simp [NoBusErr, update_register]

theorem noRetry_update_register (reg mask val : Nat) :
    NoRetry (update_register reg mask val) := by
  intro t
  unfold update_register
  rcases hr : t.readResp reg 1 with c | bs
  · rw [run_read_error _ hr]
    simp
  · rw [run_read_ok _ hr]
    rcases hw : t.writeResp reg [rmw mask val (List.headD bs 0)] with c | u
    · rw [run_write_error _ hw]
      simp
    · rw [run_write_ok _ hw]
      simp [run_ret]

theorem propagatesBus_of_noBusErr {α : Type} {p : Prog α} (h : NoBusErr p) :
    PropagatesBus p :=
  fun t c he => run_bus_error p h t c he

theorem propagatesBus_fail_invalid {α : Type} :
    PropagatesBus (Prog.fail .invalidArg : Prog α) := by
  intro t c he
  rw [run_fail] at he
  simp at he

theorem noRetry_fail {α : Type} (e : Err) :
    NoRetry (Prog.fail e : Prog α) := by
  intro t
  rw [run_fail]
  simp

theorem noRetry_single_read {α : Type} (r n : Nat) (f : List Nat → α) :
    NoRetry (.readReg r n fun bs => .ret (f bs)) := by
  intro t
  rcases hr : t.readResp r n with c | bs
  · rw [run_read_error _ hr]
    simp
  · rw [run_read_ok _ hr]
    simp [run_ret]

theorem noRetry_single_write (r : Nat) (bs : List Nat) :
    NoRetry (.writeReg r bs (.ret ())) := by
  intro t
  rcases hw : t.writeResp r bs with c | u
  · rw [run_write_error _ hw]
    simp
  · rw [run_write_ok _ hw, run_ret]
    simp

/-! ## Claim theorems -/

/-- C1: for every gain value among the 8 gain enum levels and every raw
sample, the raw-to-milligauss conversion multiplies each axis (x, y, z)
by exactly the documented scale factor for that gain (0.73, 0.92, 1.22,
1.52, 2.27, 2.56, 3.03, 4.35 mG/LSb for GAIN_1370..GAIN_230), with no
clamping of out-of-range values (the equations hold for every raw value,
in particular outside the nominal range); with GAIN_1090 a raw axis
value of 1000 converts to exactly 920 mG. -/
theorem C1_raw_to_mg_scale_table :
    (∀ raw : RawData, hmc5883l_raw_to_mg HMC5883L_GAIN_1370 raw =
       ⟨raw.x * (73 / 100 : ℚ), raw.y * (73 / 100 : ℚ), raw.z * (73 / 100 : ℚ)⟩) ∧
    (∀ raw : RawData, hmc5883l_raw_to_mg HMC5883L_GAIN_1090 raw =
       ⟨raw.x * (92 / 100 : ℚ), raw.y * (92 / 100 : ℚ), raw.z * (92 / 100 : ℚ)⟩) ∧
    (∀ raw : RawData, hmc5883l_raw_to_mg HMC5883L_GAIN_820 raw =
       ⟨raw.x * (122 / 100 : ℚ), raw.y * (122 / 100 : ℚ), raw.z * (122 / 100 : ℚ)⟩) ∧
    (∀ raw : RawData, hmc5883l_raw_to_mg HMC5883L_GAIN_660 raw =
       ⟨raw.x * (152 / 100 : ℚ), raw.y * (152 / 100 : ℚ), raw.z * (152 / 100 : ℚ)⟩) ∧
    (∀ raw : RawData, hmc5883l_raw_to_mg HMC5883L_GAIN_440 raw =
       ⟨raw.x * (227 / 100 : ℚ), raw.y * (227 / 100 : ℚ), raw.z * (227 / 100 : ℚ)⟩) ∧
    (∀ raw : RawData, hmc5883l_raw_to_mg HMC5883L_GAIN_390 raw =
       ⟨raw.x * (256 / 100 : ℚ), raw.y * (256 / 100 : ℚ), raw.z * (256 / 100 : ℚ)⟩) ∧
    (∀ raw : RawData, hmc5883l_raw_to_mg HMC5883L_GAIN_330 raw =
       ⟨raw.x * (303 / 100 : ℚ), raw.y * (303 / 100 : ℚ), raw.z * (303 / 100 : ℚ)⟩) ∧
    (∀ raw : RawData, hmc5883l_raw_to_mg HMC5883L_GAIN_230 raw =
       ⟨raw.x * (435 / 100 : ℚ), raw.y * (435 / 100 : ℚ), raw.z * (435 / 100 : ℚ)⟩) ∧
    hmc5883l_raw_to_mg HMC5883L_GAIN_1090 ⟨1000, 0, 0⟩ = ⟨920, 0, 0⟩ := by
  refine ⟨fun raw => rfl, fun raw => rfl, fun raw => rfl, fun raw => rfl,
    fun raw => rfl, fun raw => rfl, fun raw => rfl, fun raw => rfl, ?_⟩
  simp [hmc5883l_raw_to_mg, gain_scale, HMC5883L_GAIN_1090]
  norm_num

/-- C2: for every 6-byte register read delivered by the transport,
hmc5883l_get_raw_data assembles each consecutive byte pair as a
big-endian signed 16-bit integer (0xFF,0xFF gives -1; 0x80,0x00 gives
-32768) and maps the on-wire order X_high, X_low, Z_high, Z_low,
Y_high, Y_low into logical x, y, z, in a single 6-register read
transaction.  The last conjunct characterizes `s16be` as the sign
extension of the big-endian 16-bit value. -/
theorem C2_get_raw_data_assembly :
    (∀ (t : Transport) (b0 b1 b2 b3 b4 b5 : Nat),
       t.readResp REG_DATA 6 = .ok [b0, b1, b2, b3, b4, b5] →
       run hmc5883l_get_raw_data t =
         (.ok ⟨s16be b0 b1, s16be b4 b5, s16be b2 b3⟩, [.read REG_DATA 6])) ∧
    s16be 0xFF 0xFF = -1 ∧
    s16be 0x80 0x00 = -32768 ∧
    (∀ hi lo : Nat, hi < 256 → lo < 256 →
       -32768 ≤ s16be hi lo ∧ s16be hi lo < 32768 ∧
       s16be hi lo % 65536 = ((hi * 256 + lo : Nat) : Int)) := by
  refine ⟨?_, by decide, by decide, ?_⟩
  · intro t b0 b1 b2 b3 b4 b5 h
    simp only [hmc5883l_get_raw_data]
    rw [run_read_ok _ h]
    simp [run, List.getD]
  · intro hi lo hhi hlo
    refine ⟨?_, ?_, ?_⟩ <;> simp only [s16be] <;> split <;> push_cast <;> omega

/-- Witness for C2 at the concrete byte sequence 1,2, 255,255, 128,0
(x from bytes 0-1, z from bytes 2-3 = -1, y from bytes 4-5 = -32768). -/
theorem C2_get_raw_data_assembly_witness :
    run hmc5883l_get_raw_data (mock_ok [1, 2, 255, 255, 128, 0]) =
      (.ok ⟨s16be 1 2, s16be 128 0, s16be 255 255⟩, [.read REG_DATA 6]) ∧
    (-32768 ≤ s16be 255 255 ∧ s16be 255 255 < 32768 ∧
      s16be 255 255 % 65536 = ((255 * 256 + 255 : Nat) : Int)) :=
  ⟨C2_get_raw_data_assembly.1 (mock_ok [1, 2, 255, 255, 128, 0])
      1 2 255 255 128 0 rfl,
   C2_get_raw_data_assembly.2.2.2 255 255 (by decide) (by decide)⟩

set_option maxRecDepth 100000 in
set_option maxHeartbeats 2000000 in
/-- C3: each of set_samples_averaged, set_data_rate and set_bias is a
read-modify-write of Configuration Register A (the trace is the read of
A followed by a write of the combined value) that changes only its own
sub-field: the other two fields read back bit-exact unchanged, the set
field reads back as the value written, and after a sequence of the
three setters each field reads back the last value set for it. -/
theorem C3_register_a_rmw_frame :
    (∀ (t : Transport) (a s : Nat), s < 4 → t.readResp REG_CR_A 1 = .ok [a] →
       (run (hmc5883l_set_samples_averaged s) t).2 =
         [.read REG_CR_A 1, .write REG_CR_A [cra_set_samples s a]]) ∧
    (∀ (t : Transport) (a d : Nat), d < 7 → t.readResp REG_CR_A 1 = .ok [a] →
       (run (hmc5883l_set_data_rate d) t).2 =
         [.read REG_CR_A 1, .write REG_CR_A [cra_set_rate d a]]) ∧
    (∀ (t : Transport) (a b : Nat), b < 3 → t.readResp REG_CR_A 1 = .ok [a] →
       (run (hmc5883l_set_bias b) t).2 =
         [.read REG_CR_A 1, .write REG_CR_A [cra_set_bias b a]]) ∧
    (∀ a < 256, ∀ s < 4,
       cra_get_rate (cra_set_samples s a) = cra_get_rate a ∧
       cra_get_bias (cra_set_samples s a) = cra_get_bias a ∧
       cra_get_samples (cra_set_samples s a) = s) ∧
    (∀ a < 256, ∀ d < 7,
       cra_get_samples (cra_set_rate d a) = cra_get_samples a ∧
       cra_get_bias (cra_set_rate d a) = cra_get_bias a ∧
       cra_get_rate (cra_set_rate d a) = d) ∧
    (∀ a < 256, ∀ b < 3,
       cra_get_samples (cra_set_bias b a) = cra_get_samples a ∧
       cra_get_rate (cra_set_bias b a) = cra_get_rate a ∧
       cra_get_bias (cra_set_bias b a) = b) ∧
    (∀ a < 256, ∀ s < 4, ∀ d < 7, ∀ b < 3,
       cra_get_samples (cra_set_bias b (cra_set_rate d (cra_set_samples s a))) = s ∧
       cra_get_rate (cra_set_bias b (cra_set_rate d (cra_set_samples s a))) = d ∧
       cra_get_bias (cra_set_bias b (cra_set_rate d (cra_set_samples s a))) = b) := by
  refine ⟨?_, ?_, ?_, ?_, ?_, ?_, ?_⟩
  · intro t a s hs hr
    simp only [hmc5883l_set_samples_averaged, if_pos hs]
    exact run_update_register_trace t REG_CR_A MASK_MA (s <<< BIT_MA) a hr
  · intro t a d hd hr
    simp only [hmc5883l_set_data_rate, if_pos hd]
    exact run_update_register_trace t REG_CR_A MASK_DO (d <<< BIT_DO) a hr
  · intro t a b hb hr
    simp only [hmc5883l_set_bias, if_pos hb]
    exact run_update_register_trace t REG_CR_A MASK_MS b a hr
  · decide
  · decide
  · decide
  · decide

/-- Witness for C3 at register value 0xFF, samples 2, rate 3, bias 1. -/
theorem C3_register_a_rmw_frame_witness :
    (run (hmc5883l_set_samples_averaged 2) (mock_ok [0xFF])).2 =
      [.read REG_CR_A 1, .write REG_CR_A [cra_set_samples 2 0xFF]] ∧
    (run (hmc5883l_set_data_rate 3) (mock_ok [0xFF])).2 =
      [.read REG_CR_A 1, .write REG_CR_A [cra_set_rate 3 0xFF]] ∧
    (run (hmc5883l_set_bias 1) (mock_ok [0xFF])).2 =
      [.read REG_CR_A 1, .write REG_CR_A [cra_set_bias 1 0xFF]] ∧
    (cra_get_rate (cra_set_samples 2 0xFF) = cra_get_rate 0xFF ∧
     cra_get_bias (cra_set_samples 2 0xFF) = cra_get_bias 0xFF ∧
     cra_get_samples (cra_set_samples 2 0xFF) = 2) ∧
    (cra_get_samples (cra_set_bias 1 (cra_set_rate 3 (cra_set_samples 2 0xFF))) = 2 ∧
     cra_get_rate (cra_set_bias 1 (cra_set_rate 3 (cra_set_samples 2 0xFF))) = 3 ∧
     cra_get_bias (cra_set_bias 1 (cra_set_rate 3 (cra_set_samples 2 0xFF))) = 1) :=
  ⟨C3_register_a_rmw_frame.1 (mock_ok [0xFF]) 0xFF 2 (by decide) rfl,
   C3_register_a_rmw_frame.2.1 (mock_ok [0xFF]) 0xFF 3 (by decide) rfl,
   C3_register_a_rmw_frame.2.2.1 (mock_ok [0xFF]) 0xFF 1 (by decide) rfl,
   C3_register_a_rmw_frame.2.2.2.1 0xFF (by decide) 2 (by decide),
   C3_register_a_rmw_frame.2.2.2.2.2.2 0xFF (by decide) 2 (by decide) 3 (by decide) 1 (by decide)⟩

/-- C4 counterexample: big-endian concatenation of the identity bytes
0x48,0x34,0x33 gives 0x483433, not the header's expected constant
HMC5883L_ID = 0x00333448 — so "concatenates the bytes big-endian" and
"the result equals 0x00333448" cannot both hold. -/
theorem C4_big_endian_counterexample :
    concat_be [0x48, 0x34, 0x33] = 0x483433 ∧
    concat_be [0x48, 0x34, 0x33] ≠ HMC5883L_ID := by
  refine ⟨?_, ?_⟩ <;> decide

/-- C4 (amended): hmc5883l_get_id reads the 3 identity registers in one
3-byte transaction and concatenates the bytes little-endian (the first
identity register lands in the low byte); when the chip returns the
ASCII bytes 0x48,0x34,0x33 ("H43") the result equals the expected
constant 0x00333448. -/
theorem C4_get_id_little_endian :
    (∀ (t : Transport) (b0 b1 b2 : Nat),
       t.readResp REG_ID_A 3 = .ok [b0, b1, b2] →
       run hmc5883l_get_id t =
         (.ok (b0 + b1 * 256 + b2 * 65536), [.read REG_ID_A 3])) ∧
    (∀ t : Transport, t.readResp REG_ID_A 3 = .ok [0x48, 0x34, 0x33] →
       run hmc5883l_get_id t = (.ok HMC5883L_ID, [.read REG_ID_A 3])) := by
  have key : ∀ (t : Transport) (b0 b1 b2 : Nat),
      t.readResp REG_ID_A 3 = .ok [b0, b1, b2] →
      run hmc5883l_get_id t =
        (.ok (b0 + b1 * 256 + b2 * 65536), [.read REG_ID_A 3]) := by
    intro t b0 b1 b2 h
    simp only [hmc5883l_get_id]
    rw [run_read_ok _ h]
    simp [run, List.getD]
  exact ⟨key, fun t h => by rw [key t 0x48 0x34 0x33 h]; norm_num [HMC5883L_ID]⟩

/-- Witness for C4 on a transport returning the ASCII bytes "H43". -/
theorem C4_get_id_little_endian_witness :
    run hmc5883l_get_id (mock_ok [0x48, 0x34, 0x33]) =
      (.ok HMC5883L_ID, [.read REG_ID_A 3]) :=
  C4_get_id_little_endian.2 (mock_ok [0x48, 0x34, 0x33]) rfl

set_option maxRecDepth 100000 in
set_option maxHeartbeats 2000000 in
/-- C5: the Configuration Register A encoding places the
samples-averaged value (0..3) as a 2-bit field at bit offset 5 (bits
[6:5], with bit 7 left untouched by the setter and zero in the encoded
field), the data-rate value (0..6) as a 3-bit field in bits [4:2], and
the bias value (0..2) in bits [1:0]; the setters write exactly those
bit positions and the getters decode exactly those bit positions. -/
theorem C5_register_a_bit_positions :
    (∀ a < 256, ∀ s < 4, ∀ i < 8,
       (cra_set_samples s a).testBit i =
         (if i = 5 then s.testBit 0 else if i = 6 then s.testBit 1
          else a.testBit i)) ∧
    (∀ a < 256, ∀ d < 7, ∀ i < 8,
       (cra_set_rate d a).testBit i =
         (if i = 2 then d.testBit 0 else if i = 3 then d.testBit 1
          else if i = 4 then d.testBit 2 else a.testBit i)) ∧
    (∀ a < 256, ∀ b < 3, ∀ i < 8,
       (cra_set_bias b a).testBit i =
         (if i = 0 then b.testBit 0 else if i = 1 then b.testBit 1
          else a.testBit i)) ∧
    (∀ a < 256,
       cra_get_samples a =
         (if a.testBit 6 then 2 else 0) + (if a.testBit 5 then 1 else 0) ∧
       cra_get_rate a =
         (if a.testBit 4 then 4 else 0) + (if a.testBit 3 then 2 else 0) +
           (if a.testBit 2 then 1 else 0) ∧
       cra_get_bias a =
         (if a.testBit 1 then 2 else 0) + (if a.testBit 0 then 1 else 0)) ∧
    (∀ s < 4, ∀ d < 7, ∀ b < 3,
       cra_get_samples ((s <<< 5) ||| (d <<< 2) ||| b) = s ∧
       cra_get_rate ((s <<< 5) ||| (d <<< 2) ||| b) = d ∧
       cra_get_bias ((s <<< 5) ||| (d <<< 2) ||| b) = b) := by
  refine ⟨?_, ?_, ?_, ?_, ?_⟩
  · decide
  · decide
  · decide
  · decide
  · decide

/-- Witness for C5 at register value 0xA5, samples 2, rate 5, bias 1. -/
theorem C5_register_a_bit_positions_witness :
    (cra_set_samples 2 0xA5).testBit 5 = Nat.testBit 2 0 ∧
    (cra_set_rate 5 0xA5).testBit 3 = Nat.testBit 5 1 ∧
    (cra_set_bias 1 0xA5).testBit 0 = Nat.testBit 1 0 ∧
    cra_get_samples 0xA5 =
      (if Nat.testBit 0xA5 6 then 2 else 0) +
        (if Nat.testBit 0xA5 5 then 1 else 0) ∧
    cra_get_samples ((2 <<< 5) ||| (5 <<< 2) ||| 1) = 2 :=
  ⟨by have h := C5_register_a_bit_positions.1 0xA5 (by decide) 2 (by decide)
        5 (by decide)
      simpa using h,
   by have h := C5_register_a_bit_positions.2.1 0xA5 (by decide) 5 (by decide)
        3 (by decide)
      simpa using h,
   by have h := C5_register_a_bit_positions.2.2.1 0xA5 (by decide) 1 (by decide)
        0 (by decide)
      simpa using h,
   (C5_register_a_bit_positions.2.2.2.1 0xA5 (by decide)).1,
   (C5_register_a_bit_positions.2.2.2.2 2 (by decide) 5 (by decide) 1
      (by decide)).1⟩

/-- C6: for every valid gain value, hmc5883l_set_gain issues exactly one
bus transaction — a direct write of Configuration Register B with the
3-bit gain field at bit offset 5 and bits [4:0] zero, no read — and the
chip's Configuration Register A (hence its samples-averaged, data-rate
and bias fields) is unchanged by the trace. -/
theorem C6_set_gain_direct_write :
    ∀ g, g < 8 →
      (∀ t : Transport, (run (hmc5883l_set_gain g) t).2 =
        [.write REG_CR_B [crb_set_gain g]]) ∧
      crb_set_gain g &&& 0x1F = 0 ∧
      crb_get_gain (crb_set_gain g) = g ∧
      (∀ (t : Transport) (regs : Nat → Nat),
        applyWrites ((run (hmc5883l_set_gain g) t).2) regs REG_CR_A =
          regs REG_CR_A) ∧
      (∀ (t : Transport) (regs : Nat → Nat),
        cra_get_samples
            (applyWrites ((run (hmc5883l_set_gain g) t).2) regs REG_CR_A) =
          cra_get_samples (regs REG_CR_A) ∧
        cra_get_rate
            (applyWrites ((run (hmc5883l_set_gain g) t).2) regs REG_CR_A) =
          cra_get_rate (regs REG_CR_A) ∧
        cra_get_bias
            (applyWrites ((run (hmc5883l_set_gain g) t).2) regs REG_CR_A) =
          cra_get_bias (regs REG_CR_A)) := by
  intro g hg
  have htr : ∀ t : Transport, (run (hmc5883l_set_gain g) t).2 =
      [.write REG_CR_B [crb_set_gain g]] := by
    intro t
    simp only [hmc5883l_set_gain, if_pos hg]
    rcases hw : t.writeResp REG_CR_B [crb_set_gain g] with c | u
    · rw [run_write_error _ hw]
    · rw [run_write_ok _ hw, run_ret]
  have hp : ∀ g' < 8, crb_set_gain g' &&& 0x1F = 0 ∧
      crb_get_gain (crb_set_gain g') = g' := by decide
  have hfr : ∀ (t : Transport) (regs : Nat → Nat),
      applyWrites ((run (hmc5883l_set_gain g) t).2) regs REG_CR_A =
        regs REG_CR_A := by
    intro t regs
    rw [htr t]
    simp [applyWrites, REG_CR_A, REG_CR_B]
  refine ⟨htr, (hp g hg).1, (hp g hg).2, hfr, ?_⟩
  intro t regs
  rw [hfr t regs]
  exact ⟨rfl, rfl, rfl⟩

/-- Witness for C6 at gain 3 against a concrete transport and register
file. -/
theorem C6_set_gain_direct_write_witness :
    (run (hmc5883l_set_gain 3) (mock_ok [])).2 =
      [.write REG_CR_B [crb_set_gain 3]] ∧
    crb_set_gain 3 &&& 0x1F = 0 ∧
    crb_get_gain (crb_set_gain 3) = 3 ∧
    applyWrites ((run (hmc5883l_set_gain 3) (mock_ok [])).2)
        (fun _ => 0xFF) REG_CR_A = (fun _ => 0xFF : Nat → Nat) REG_CR_A :=
  ⟨(C6_set_gain_direct_write 3 (by decide)).1 (mock_ok []),
   (C6_set_gain_direct_write 3 (by decide)).2.1,
   (C6_set_gain_direct_write 3 (by decide)).2.2.1,
   (C6_set_gain_direct_write 3 (by decide)).2.2.2.1 (mock_ok [])
     (fun _ => 0xFF)⟩

/-- C7: hmc5883l_set_opmode encodes the operating mode into bit 0 of
the Mode Register (0 = continuous, 1 = single) and issues a single
direct write of the full intended value with all other bits zero (no
read of the Mode Register first); hmc5883l_get_opmode reads the Mode
Register and decodes exactly bit 0. -/
theorem C7_set_opmode_bit0_direct_write :
    ∀ m, m < 2 →
      (∀ t : Transport,
        (run (hmc5883l_set_opmode m) t).2 = [.write REG_MODE [m]]) ∧
      m &&& 1 = m ∧
      (∀ i, 1 ≤ i → m.testBit i = false) ∧
      (∀ v : Nat, decode_opmode v = if v.testBit 0 then 1 else 0) ∧
      (∀ (t : Transport) (v : Nat), t.readResp REG_MODE 1 = .ok [v] →
        run hmc5883l_get_opmode t =
          (.ok (decode_opmode v), [.read REG_MODE 1])) := by
  intro m hm
  refine ⟨?_, ?_, ?_, ?_, ?_⟩
  · intro t
    simp only [hmc5883l_set_opmode, if_pos hm]
    rcases hw : t.writeResp REG_MODE [m] with c | u
    · rw [run_write_error _ hw]
    · rw [run_write_ok _ hw, run_ret]
  · interval_cases m <;> decide
  · intro i hi
    interval_cases m
    · simp
    · rcases i with _ | j
      · omega
      · simp [Nat.testBit_succ]
  · intro v
    rcases Nat.mod_two_eq_zero_or_one v with h | h <;>
      simp [decode_opmode, Nat.and_one_is_mod, Nat.testBit_zero, h]
  · intro t v h
    simp only [hmc5883l_get_opmode]
    rw [run_read_ok _ h]
    simp [run, List.headD_cons]

/-- Witness for C7 at mode 1 (single) and Mode Register value 0xF2. -/
theorem C7_set_opmode_bit0_direct_write_witness :
    (run (hmc5883l_set_opmode 1) (mock_ok [])).2 = [.write REG_MODE [1]] ∧
    (1 : Nat) &&& 1 = 1 ∧
    Nat.testBit 1 3 = false ∧
    decode_opmode 0xF2 = (if Nat.testBit 0xF2 0 then 1 else 0) ∧
    run hmc5883l_get_opmode (mock_ok [0xF2]) =
      (.ok (decode_opmode 0xF2), [.read REG_MODE 1]) :=
  ⟨(C7_set_opmode_bit0_direct_write 1 (by decide)).1 (mock_ok []),
   (C7_set_opmode_bit0_direct_write 1 (by decide)).2.1,
   (C7_set_opmode_bit0_direct_write 1 (by decide)).2.2.1 3 (by decide),
   (C7_set_opmode_bit0_direct_write 1 (by decide)).2.2.2.1 0xF2,
   (C7_set_opmode_bit0_direct_write 1 (by decide)).2.2.2.2 (mock_ok [0xF2])
     0xF2 rfl⟩

/-- C8: every setter, applied to an argument outside its valid enum set
and any transport whatsoever, returns InvalidArgument with an empty
transaction trace — nothing is read or written on the bus. -/
theorem C8_invalid_argument_no_transaction :
    ∀ (t : Transport) (v : Nat),
      (2 ≤ v → run (hmc5883l_set_opmode v) t = (.error .invalidArg, [])) ∧
      (4 ≤ v →
        run (hmc5883l_set_samples_averaged v) t = (.error .invalidArg, [])) ∧
      (7 ≤ v → run (hmc5883l_set_data_rate v) t = (.error .invalidArg, [])) ∧
      (3 ≤ v → run (hmc5883l_set_bias v) t = (.error .invalidArg, [])) ∧
      (8 ≤ v → run (hmc5883l_set_gain v) t = (.error .invalidArg, [])) := by
  intro t v
  refine ⟨fun h => ?_, fun h => ?_, fun h => ?_, fun h => ?_, fun h => ?_⟩
  · simp only [hmc5883l_set_opmode, if_neg (by omega : ¬ v < 2)]
    exact run_fail _ t
  · simp only [hmc5883l_set_samples_averaged, if_neg (by omega : ¬ v < 4)]
    exact run_fail _ t
  · simp only [hmc5883l_set_data_rate, if_neg (by omega : ¬ v < 7)]
    exact run_fail _ t
  · simp only [hmc5883l_set_bias, if_neg (by omega : ¬ v < 3)]
    exact run_fail _ t
  · simp only [hmc5883l_set_gain, if_neg (by omega : ¬ v < 8)]
    exact run_fail _ t

/-- Witness for C8 at the out-of-range argument 100. -/
theorem C8_invalid_argument_no_transaction_witness :
    run (hmc5883l_set_opmode 100) (mock_ok []) = (.error .invalidArg, []) ∧
    run (hmc5883l_set_samples_averaged 100) (mock_ok []) =
      (.error .invalidArg, []) ∧
    run (hmc5883l_set_data_rate 100) (mock_ok []) =
      (.error .invalidArg, []) ∧
    run (hmc5883l_set_bias 100) (mock_ok []) = (.error .invalidArg, []) ∧
    run (hmc5883l_set_gain 100) (mock_ok []) = (.error .invalidArg, []) :=
  ⟨(C8_invalid_argument_no_transaction (mock_ok []) 100).1 (by decide),
   (C8_invalid_argument_no_transaction (mock_ok []) 100).2.1 (by decide),
   (C8_invalid_argument_no_transaction (mock_ok []) 100).2.2.1 (by decide),
   (C8_invalid_argument_no_transaction (mock_ok []) 100).2.2.2.1 (by decide),
   (C8_invalid_argument_no_transaction (mock_ok []) 100).2.2.2.2 (by decide)⟩

/-- C9: for every operation and every transport, a bus-failure result
carries the transport's error code verbatim and the trace stops at the
first failing transaction (PropagatesBus), and no transaction is ever
issued twice — no internal retry (NoRetry).  The two closing conjuncts
exercise the write half and the read half of a read-modify-write
failing: the failure surfaces as a distinct error with nothing issued
after it and no default result substituted. -/
theorem C9_transport_failures_surfaced :
    (∀ v : Nat, PropagatesBus (hmc5883l_set_opmode v) ∧
      NoRetry (hmc5883l_set_opmode v)) ∧
    (∀ v : Nat, PropagatesBus (hmc5883l_set_samples_averaged v) ∧
      NoRetry (hmc5883l_set_samples_averaged v)) ∧
    (∀ v : Nat, PropagatesBus (hmc5883l_set_data_rate v) ∧
      NoRetry (hmc5883l_set_data_rate v)) ∧
    (∀ v : Nat, PropagatesBus (hmc5883l_set_bias v) ∧
      NoRetry (hmc5883l_set_bias v)) ∧
    (∀ v : Nat, PropagatesBus (hmc5883l_set_gain v) ∧
      NoRetry (hmc5883l_set_gain v)) ∧
    (PropagatesBus hmc5883l_get_opmode ∧ NoRetry hmc5883l_get_opmode) ∧
    (PropagatesBus hmc5883l_get_samples_averaged ∧
      NoRetry hmc5883l_get_samples_averaged) ∧
    (PropagatesBus hmc5883l_get_data_rate ∧ NoRetry hmc5883l_get_data_rate) ∧
    (PropagatesBus hmc5883l_get_bias ∧ NoRetry hmc5883l_get_bias) ∧
    (PropagatesBus hmc5883l_get_gain ∧ NoRetry hmc5883l_get_gain) ∧
    (PropagatesBus hmc5883l_data_is_ready ∧ NoRetry hmc5883l_data_is_ready) ∧
    (PropagatesBus hmc5883l_data_is_locked ∧
      NoRetry hmc5883l_data_is_locked) ∧
    (PropagatesBus hmc5883l_get_id ∧ NoRetry hmc5883l_get_id) ∧
    (PropagatesBus hmc5883l_get_raw_data ∧ NoRetry hmc5883l_get_raw_data) ∧
    (∀ st : DriverState, PropagatesBus (hmc5883l_get_data st) ∧
      NoRetry (hmc5883l_get_data st)) ∧
    run (hmc5883l_set_samples_averaged 0) (mock_write_fail 7) =
      (.error (.bus 7),
       [.read REG_CR_A 1, .write REG_CR_A [cra_set_samples 0 0]]) ∧
    run (hmc5883l_set_samples_averaged 0) (mock_read_fail 9) =
      (.error (.bus 9), [.read REG_CR_A 1]) := by
  have setter2 : ∀ v : Nat, PropagatesBus (hmc5883l_set_opmode v) ∧
      NoRetry (hmc5883l_set_opmode v) := by
    intro v
    by_cases hv : v < 2
    · simp only [hmc5883l_set_opmode, if_pos hv]
      exact ⟨propagatesBus_of_noBusErr (by simp [NoBusErr]),
        noRetry_single_write _ _⟩
    · simp only [hmc5883l_set_opmode, if_neg hv]
      exact ⟨propagatesBus_fail_invalid, noRetry_fail _⟩
  have rmwSetter : ∀ (bound v mask val : Nat),
      PropagatesBus (if v < bound then update_register REG_CR_A mask val
        else .fail .invalidArg) ∧
      NoRetry (if v < bound then update_register REG_CR_A mask val
        else .fail .invalidArg) := by
    intro bound v mask val
    by_cases hv : v < bound
    · simp only [if_pos hv]
      exact ⟨propagatesBus_of_noBusErr (noBusErr_update_register _ _ _),
        noRetry_update_register _ _ _⟩
    · simp only [if_neg hv]
      exact ⟨propagatesBus_fail_invalid, noRetry_fail _⟩
  have gainSetter : ∀ v : Nat, PropagatesBus (hmc5883l_set_gain v) ∧
      NoRetry (hmc5883l_set_gain v) := by
    intro v
    by_cases hv : v < 8
    · simp only [hmc5883l_set_gain, if_pos hv]
      exact ⟨propagatesBus_of_noBusErr (by simp [NoBusErr]),
        noRetry_single_write _ _⟩
    · simp only [hmc5883l_set_gain, if_neg hv]
      exact ⟨propagatesBus_fail_invalid, noRetry_fail _⟩
  have hwf : run (hmc5883l_set_samples_averaged 0) (mock_write_fail 7) =
      (.error (.bus 7),
       [.read REG_CR_A 1, .write REG_CR_A [cra_set_samples 0 0]]) := by
    simp only [hmc5883l_set_samples_averaged,
      if_pos (by decide : (0 : Nat) < 4), update_register]
    rw [run_read_ok _
      (rfl : (mock_write_fail 7).readResp REG_CR_A 1 = .ok [0])]
    simp only [List.replicate, List.headD_cons]
    rw [run_write_error _
      (rfl : (mock_write_fail 7).writeResp REG_CR_A
        [rmw MASK_MA (0 <<< BIT_MA) 0] = .error 7)]
    simp [cra_set_samples]
  have hrf : run (hmc5883l_set_samples_averaged 0) (mock_read_fail 9) =
      (.error (.bus 9), [.read REG_CR_A 1]) := by
    simp only [hmc5883l_set_samples_averaged,
      if_pos (by decide : (0 : Nat) < 4), update_register]
    rw [run_read_error _
      (rfl : (mock_read_fail 9).readResp REG_CR_A 1 = .error 9)]
  refine ⟨setter2, fun v => rmwSetter 4 v MASK_MA (v <<< BIT_MA),
    fun v => rmwSetter 7 v MASK_DO (v <<< BIT_DO),
    fun v => rmwSetter 3 v MASK_MS v, gainSetter,
    ⟨propagatesBus_of_noBusErr (by simp [NoBusErr, hmc5883l_get_opmode]),
      noRetry_single_read _ _ _⟩,
    ⟨propagatesBus_of_noBusErr
        (by simp [NoBusErr, hmc5883l_get_samples_averaged]),
      noRetry_single_read _ _ _⟩,
    ⟨propagatesBus_of_noBusErr (by simp [NoBusErr, hmc5883l_get_data_rate]),
      noRetry_single_read _ _ _⟩,
    ⟨propagatesBus_of_noBusErr (by simp [NoBusErr, hmc5883l_get_bias]),
      noRetry_single_read _ _ _⟩,
    ⟨propagatesBus_of_noBusErr (by simp [NoBusErr, hmc5883l_get_gain]),
      noRetry_single_read _ _ _⟩,
    ⟨propagatesBus_of_noBusErr (by simp [NoBusErr, hmc5883l_data_is_ready]),
      noRetry_single_read _ _ _⟩,
    ⟨propagatesBus_of_noBusErr
        (by simp [NoBusErr, hmc5883l_data_is_locked]),
      noRetry_single_read _ _ _⟩,
    ⟨propagatesBus_of_noBusErr (by simp [NoBusErr, hmc5883l_get_id]),
      noRetry_single_read _ _ _⟩,
    ⟨propagatesBus_of_noBusErr (by simp [NoBusErr, hmc5883l_get_raw_data]),
      noRetry_single_read _ _ _⟩,
    fun st =>
      ⟨propagatesBus_of_noBusErr
          (by simp [NoBusErr, hmc5883l_get_data, hmc5883l_get_raw_data,
            Prog.bind]),
        noRetry_single_read _ _ _⟩,
    hwf, hrf⟩

/-- Witness for C9: a failing write on set_opmode is the first and only
failing transaction of its trace, and a successful run has a
duplicate-free trace. -/
theorem C9_transport_failures_surfaced_witness :
    FirstFail (mock_write_fail 7)
      (run (hmc5883l_set_opmode 0) (mock_write_fail 7)).2 7 ∧
    ((run (hmc5883l_set_opmode 0) (mock_ok [])).2).Nodup :=
  ⟨(C9_transport_failures_surfaced.1 0).1 (mock_write_fail 7) 7 rfl,
   (C9_transport_failures_surfaced.1 0).2 (mock_ok [])⟩

/-- C10: hmc5883l_raw_to_mg's output is not a function of the raw sample
alone — it depends on the driver-internal current gain set by
hmc5883l_set_gain (the C function takes no gain parameter): the same
raw input converts differently after different set_gain calls, and
hmc5883l_get_data converts through this internally tracked gain. -/
theorem C10_conversion_depends_on_gain_state :
    hmc5883l_raw_to_mg
        (set_gain_state HMC5883L_GAIN_1370 ⟨HMC5883L_GAIN_1090⟩).current_gain
        ⟨1000, 0, 0⟩ ≠
      hmc5883l_raw_to_mg
        (set_gain_state HMC5883L_GAIN_1090 ⟨HMC5883L_GAIN_1370⟩).current_gain
        ⟨1000, 0, 0⟩ ∧
    (run (hmc5883l_get_data ⟨HMC5883L_GAIN_1370⟩)
        (mock_ok [1, 2, 255, 255, 128, 0])).1 ≠
      (run (hmc5883l_get_data ⟨HMC5883L_GAIN_1090⟩)
        (mock_ok [1, 2, 255, 255, 128, 0])).1 ∧
    (∀ (st : DriverState) (t : Transport) (b0 b1 b2 b3 b4 b5 : Nat),
       t.readResp REG_DATA 6 = .ok [b0, b1, b2, b3, b4, b5] →
       (run (hmc5883l_get_data st) t).1 =
         .ok (hmc5883l_raw_to_mg st.current_gain
           ⟨s16be b0 b1, s16be b4 b5, s16be b2 b3⟩)) := by
  have key : ∀ (st : DriverState) (t : Transport) (b0 b1 b2 b3 b4 b5 : Nat),
      t.readResp REG_DATA 6 = .ok [b0, b1, b2, b3, b4, b5] →
      (run (hmc5883l_get_data st) t).1 =
        .ok (hmc5883l_raw_to_mg st.current_gain
          ⟨s16be b0 b1, s16be b4 b5, s16be b2 b3⟩) := by
    intro st t b0 b1 b2 b3 b4 b5 h
    simp only [hmc5883l_get_data, hmc5883l_get_raw_data, Prog.bind]
    rw [run_read_ok _ h]
    simp [run, List.getD]
  refine ⟨?_, ?_, key⟩
  · simp only [set_gain_state, hmc5883l_raw_to_mg, gain_scale,
      HMC5883L_GAIN_1370, HMC5883L_GAIN_1090, MgData.mk.injEq, ne_eq]
    norm_num
  · rw [key ⟨HMC5883L_GAIN_1370⟩ (mock_ok [1, 2, 255, 255, 128, 0])
        1 2 255 255 128 0 rfl,
      key ⟨HMC5883L_GAIN_1090⟩ (mock_ok [1, 2, 255, 255, 128, 0])
        1 2 255 255 128 0 rfl]
    simp only [hmc5883l_raw_to_mg, gain_scale, HMC5883L_GAIN_1370,
      HMC5883L_GAIN_1090, MgData.mk.injEq, ne_eq, Except.ok.injEq]
    norm_num [s16be]

/-- Witness for C10's get_data conjunct at a concrete state and
transport. -/
theorem C10_conversion_depends_on_gain_state_witness :
    (run (hmc5883l_get_data ⟨HMC5883L_GAIN_230⟩)
        (mock_ok [1, 2, 255, 255, 128, 0])).1 =
      .ok (hmc5883l_raw_to_mg (DriverState.mk HMC5883L_GAIN_230).current_gain
        ⟨s16be 1 2, s16be 128 0, s16be 255 255⟩) :=
  C10_conversion_depends_on_gain_state.2.2 ⟨HMC5883L_GAIN_230⟩
    (mock_ok [1, 2, 255, 255, 128, 0]) 1 2 255 255 128 0 rfl

end HMC5883L
